import Mathlib

/-!
Verification of the VQ-CLIP model-composition layer
(`src/vq_clip/modeling_vq_clip.py`) against its design document.

Torch tensors are modelled over exact reals: a batch of embeddings is a
list of rows (`Mat`), a scalar tensor is one `ℝ`.  The backbone
(`CLIPModel` from `transformers`) and the quantization adapter
(`VQAdapterModel`) are external capabilities consumed through a fixed
contract, so they enter the model as opaque function fields.  Diagnostic
flags that are merely passed through to the opaque towers
(`output_attentions`, `output_hidden_states`) are elided, and the flags
`return_loss` / `return_dict` / `return_perplexity` are taken as already
resolved booleans (`None` is falsy at every use site in the source).
-/

namespace VQClip

/-- A row vector (one embedding). -/
abbrev Vec := List ℝ

/-- A batch of embeddings, one row per sample. -/
abbrev Mat := List Vec

/-- Inner product of two rows. -/
def dotP (u v : Vec) : ℝ := (List.zipWith (fun a b => a * b) u v).sum

/-- Sum of squares of the entries of a row: the square of its L2 norm. -/
def sumSq (v : Vec) : ℝ := (v.map (fun a => a ^ 2)).sum

/-- L2 norm of a row, as `tensor.norm(p=2, dim=-1)` computes it. -/
noncomputable def l2norm (v : Vec) : ℝ := Real.sqrt (sumSq v)

/-- One row of `x / x.norm(p=2, dim=-1, keepdim=True)`. -/
noncomputable def normalizeRow (v : Vec) : Vec := v.map (fun a => a / l2norm v)

/-- Row-wise L2 normalization of a batch. -/
noncomputable def normalizeRows (t : Mat) : Mat := t.map normalizeRow

/-- `torch.matmul(A, B.t())`: entry (i, j) is the inner product of row i of
`A` with row j of `B`. -/
def matmulT (A B : Mat) : Mat := A.map (fun a => B.map (fun b => dotP a b))

/-- Multiplication of every entry of a matrix by a scalar. -/
def smulM (c : ℝ) (A : Mat) : Mat := A.map (fun r => r.map (fun a => c * a))

/-- The raw output object of one tower call (`text_outputs` /
`vision_outputs`): the pooled representation at index 1 plus an opaque
token standing for the remaining diagnostics. -/
structure TowerOutput where
  pooled : Mat
  raw : ℕ

/-- The text tower's arguments. -/
structure TextInputs where
  input_ids : List ℤ
  attention_mask : Option (List ℤ)
  position_ids : Option (List ℤ)

/-- What one adapter call returns (`{"z": ..., "codes": ..., "loss": ...,
"perplexity": ...}`): a replacement embedding batch, a discrete code
tensor, a scalar loss, and a perplexity scalar that the caller reads only
when it was requested. -/
structure AdapterOut where
  z : Mat
  codes : List ℕ
  loss : ℝ
  perplexity : ℝ

/-- The AdapterCapability contract: embedding batch and
`return_perplexity` flag in, `AdapterOut` out. -/
abbrev Adapter := Mat → Bool → AdapterOut

/-- The BackboneCapability contract (`CLIPModel`): two towers, two
projections, the learned temperature scalar, and the backbone's own
symmetric contrastive loss function (`clip_loss`), all consumed opaquely. -/
structure CLIPBackbone where
  text_model : TextInputs → TowerOutput
  vision_model : Mat → TowerOutput
  text_projection : Mat → Mat
  visual_projection : Mat → Mat
  logit_scale : ℝ
  clip_loss : Mat → ℝ

/-- The model instance: one backbone, plus zero, one or two adapters
(`self.vision_vq_adapter` / `self.text_vq_adapter` are `None` when the
corresponding config fragment is absent). -/
structure VQCLIPModel where
  clip_model : CLIPBackbone
  vision_vq_adapter : Option Adapter
  text_vq_adapter : Option Adapter

/-- The structured result (`VQCLIPOutput`, a dataclass extending
`CLIPOutput`).  Fields that `forward` does not pass to the constructor
keep the dataclass default `None`, modelled by the Lean default value. -/
structure VQCLIPOutput where
  loss : Option ℝ
  logits_per_image : Mat
  logits_per_text : Mat
  text_embeds : Mat
  image_embeds : Mat
  text_codes : Option (List ℕ) := none
  image_codes : Option (List ℕ) := none
  quantization_loss : ℝ
  contrastive_loss : Option ℝ := none
  perplexity : Option ℝ := none
  text_model_output : Option TowerOutput := none
  vision_model_output : Option TowerOutput := none

/-- One element of the flat (non-dict) return tuple, which is
heterogeneous in the source: a scalar loss, a matrix, or a raw tower
output object. -/
inductive FlatItem where
  | scalar (x : ℝ) : FlatItem
  | mat (m : Mat) : FlatItem
  | tower (t : TowerOutput) : FlatItem

/-- `forward`'s return type: `Union[Tuple, VQCLIPOutput]`. -/
inductive ForwardRet where
  | tuple (items : List FlatItem) : ForwardRet
  | structured (out : VQCLIPOutput) : ForwardRet

/-- The arguments of one full forward call. -/
structure ForwardInputs where
  input_ids : List ℤ
  pixel_values : Mat
  attention_mask : Option (List ℤ) := none
  position_ids : Option (List ℤ) := none

/-- The local variables of `VQCLIPModel.forward` at the point where the
output is assembled (after source lines 165-223). -/
structure ForwardLocals where
  vision_outputs : TowerOutput
  text_outputs : TowerOutput
  image_embeds : Mat
  text_embeds : Mat
  image_codes : Option (List ℕ)
  text_codes : Option (List ℕ)
  perplexity : ℝ
  vq_loss : ℝ
  logits_per_text : Mat
  logits_per_image : Mat
  loss : Option ℝ
  total_loss : Option ℝ

/-- Source lines 165-223 of `VQCLIPModel.forward`: run both towers,
project and row-normalize, route each modality through its adapter when
present (text first, then vision, neither output re-normalized),
accumulate and, when both adapters are active, halve the quantization
loss and perplexity, compute the scaled cosine-similarity logits and the
optional contrastive and total losses.  Python's sequential mutation of
`text_embeds` / `image_embeds` / `perplexity` / `vq_loss` becomes
shadowing `let`s. -/
noncomputable def forwardLocals (m : VQCLIPModel) (x : ForwardInputs)
    (return_loss return_perplexity : Bool) : ForwardLocals :=
  let vision_outputs := m.clip_model.vision_model x.pixel_values
  let text_outputs := m.clip_model.text_model
    { input_ids := x.input_ids, attention_mask := x.attention_mask,
      position_ids := x.position_ids }
  let image_embeds := m.clip_model.visual_projection vision_outputs.pooled
  let text_embeds := m.clip_model.text_projection text_outputs.pooled
  let image_embeds := normalizeRows image_embeds
  let text_embeds := normalizeRows text_embeds
  let perplexity : ℝ := 0
  let vq_loss : ℝ := 0
  let tq := m.text_vq_adapter.map (fun a => a text_embeds return_perplexity)
  let text_embeds := match tq with | some r => r.z | none => text_embeds
  let text_codes := tq.map AdapterOut.codes
  let perplexity : ℝ := match tq with
    | some r => perplexity + (if return_perplexity then r.perplexity else 0)
    | none => perplexity
  let vq_loss : ℝ := match tq with
    | some r => vq_loss + r.loss
    | none => vq_loss
  let vq := m.vision_vq_adapter.map (fun a => a image_embeds return_perplexity)
  let image_embeds := match vq with | some r => r.z | none => image_embeds
  let image_codes := vq.map AdapterOut.codes
  let perplexity : ℝ := match vq with
    | some r => perplexity + (if return_perplexity then r.perplexity else 0)
    | none => perplexity
  let vq_loss : ℝ := match vq with
    | some r => vq_loss + r.loss
    | none => vq_loss
  let perplexity :=
    if m.vision_vq_adapter.isSome && m.text_vq_adapter.isSome then perplexity / 2
    else perplexity
  let vq_loss :=
    if m.vision_vq_adapter.isSome && m.text_vq_adapter.isSome then vq_loss / 2
    else vq_loss
  let logit_scale := Real.exp m.clip_model.logit_scale
  let logits_per_text := smulM logit_scale (matmulT text_embeds image_embeds)
  let logits_per_image := logits_per_text.transpose
  let loss : Option ℝ :=
    if return_loss then some (m.clip_model.clip_loss logits_per_text) else none
  let total_loss : Option ℝ := match loss with
    | some l => some (l + vq_loss)
    | none => none
  { vision_outputs := vision_outputs, text_outputs := text_outputs,
    image_embeds := image_embeds, text_embeds := text_embeds,
    image_codes := image_codes, text_codes := text_codes,
    perplexity := perplexity, vq_loss := vq_loss,
    logits_per_text := logits_per_text, logits_per_image := logits_per_image,
    loss := loss, total_loss := total_loss }

/-- Source lines 225-246 of `VQCLIPModel.forward`: the flat tuple (loss
prepended only when it is not `None`) or the structured `VQCLIPOutput`.
The constructor call at lines 236-246 does not pass `perplexity` (nor the
raw tower outputs), so those fields keep their dataclass default `None`. -/
noncomputable def forward (m : VQCLIPModel) (x : ForwardInputs)
    (return_loss return_dict return_perplexity : Bool) : ForwardRet :=
  let L := forwardLocals m x return_loss return_perplexity
  if !return_dict then
    let output := [FlatItem.mat L.logits_per_image, FlatItem.mat L.logits_per_text,
      FlatItem.mat L.text_embeds, FlatItem.mat L.image_embeds,
      FlatItem.tower L.text_outputs, FlatItem.tower L.vision_outputs]
    match L.loss with
    | some l => ForwardRet.tuple (FlatItem.scalar l :: output)
    | none => ForwardRet.tuple output
  else
    ForwardRet.structured
      { loss := L.total_loss
        quantization_loss := L.vq_loss
        contrastive_loss := L.loss
        logits_per_image := L.logits_per_image
        logits_per_text := L.logits_per_text
        text_embeds := L.text_embeds
        text_codes := L.text_codes
        image_embeds := L.image_embeds
        image_codes := L.image_codes }

/-- The projected (pre-normalization) text embeddings of a forward call. -/
noncomputable def textProjected (m : VQCLIPModel) (x : ForwardInputs) : Mat :=
  m.clip_model.text_projection (m.clip_model.text_model
    { input_ids := x.input_ids, attention_mask := x.attention_mask,
      position_ids := x.position_ids }).pooled

/-- The projected (pre-normalization) image embeddings of a forward call. -/
noncomputable def imageProjected (m : VQCLIPModel) (x : ForwardInputs) : Mat :=
  m.clip_model.visual_projection (m.clip_model.vision_model x.pixel_values).pooled

/-- The structured output of a forward return value, when it is one. -/
def structuredOut : ForwardRet → Option VQCLIPOutput
  | ForwardRet.structured o => some o
  | ForwardRet.tuple _ => none

/-- The scalar heading a flat-tuple forward return value, when there is one. -/
def flatLossHead : ForwardRet → Option ℝ
  | ForwardRet.tuple (FlatItem.scalar l :: _) => some l
  | _ => none

/-- The `loss` field of a structured forward return value. -/
def structuredTotalLoss : ForwardRet → Option ℝ
  | ForwardRet.structured o => o.loss
  | _ => none

/-! ## Facts about the row operations -/

theorem sumSq_cons (a : ℝ) (t : Vec) : sumSq (a :: t) = a ^ 2 + sumSq t := by
  simp [sumSq]

theorem sumSq_nonneg (v : Vec) : 0 ≤ sumSq v := by
  refine List.sum_nonneg ?_
  intro x hx
  rcases List.mem_map.mp hx with ⟨a, _, rfl⟩
  positivity

theorem sumSq_pos_of_mem (v : Vec) (a : ℝ) (ha : a ∈ v) (hne : a ≠ 0) :
    0 < sumSq v := by
  have h1 : a ^ 2 ∈ v.map (fun b => b ^ 2) := List.mem_map.mpr ⟨a, ha, rfl⟩
  have h2 : a ^ 2 ≤ sumSq v := by
    refine List.single_le_sum ?_ _ h1
    intro x hx
    rcases List.mem_map.mp hx with ⟨b, _, rfl⟩
    positivity
  have h3 : 0 < a ^ 2 := by positivity
  linarith

theorem sumSq_map_div (v : Vec) (c : ℝ) :
    sumSq (v.map (fun a => a / c)) = sumSq v / c ^ 2 := by
  induction v with
  | nil => simp [sumSq]
  | cons a t ih =>
    rw [List.map_cons, sumSq_cons, sumSq_cons, ih, div_pow, div_add_div_same]

/-- Dividing a row by its L2 norm yields a unit-norm row, provided the row
is not the zero vector. -/
theorem sumSq_normalizeRow (v : Vec) (h : sumSq v ≠ 0) :
    sumSq (normalizeRow v) = 1 := by
  unfold normalizeRow l2norm
  rw [sumSq_map_div, Real.sq_sqrt (sumSq_nonneg v), div_self h]

/-! ## Bridge lemmas between `forward` and its locals -/

theorem forward_structured_eq (m : VQCLIPModel) (x : ForwardInputs)
    (rl rp : Bool) :
    forward m x rl true rp = ForwardRet.structured
      { loss := (forwardLocals m x rl rp).total_loss
        quantization_loss := (forwardLocals m x rl rp).vq_loss
        contrastive_loss := (forwardLocals m x rl rp).loss
        logits_per_image := (forwardLocals m x rl rp).logits_per_image
        logits_per_text := (forwardLocals m x rl rp).logits_per_text
        text_embeds := (forwardLocals m x rl rp).text_embeds
        text_codes := (forwardLocals m x rl rp).text_codes
        image_embeds := (forwardLocals m x rl rp).image_embeds
        image_codes := (forwardLocals m x rl rp).image_codes } := rfl

/-! ## Concrete instances used in witnesses and counterexamples -/

/-- A concrete backbone: constant towers with pooled outputs `[[3, 4]]`
(text) and `[[1, 0]]` (image), identity projections, temperature 0 and a
constant contrastive loss of 7. -/
noncomputable def cb0 : CLIPBackbone :=
  { text_model := fun _ => { pooled := [[3, 4]], raw := 0 }
    vision_model := fun _ => { pooled := [[1, 0]], raw := 1 }
    text_projection := id
    visual_projection := id
    logit_scale := 0
    clip_loss := fun _ => 7 }

/-- Concrete forward-call arguments. -/
noncomputable def cx0 : ForwardInputs := { input_ids := [0], pixel_values := [[1, 0]] }

/-- Concrete model with no adapter. -/
noncomputable def m00 : VQCLIPModel :=
  { clip_model := cb0, vision_vq_adapter := none, text_vq_adapter := none }

/-- A text adapter returning the fixed non-unit-norm replacement
`[[2, 0]]`, loss 1 and perplexity 3. -/
noncomputable def adT : Adapter :=
  fun _ _ => { z := [[2, 0]], codes := [0], loss := 1, perplexity := 3 }

/-- A vision adapter returning `[[0, 1]]`, loss 2 and perplexity 5. -/
noncomputable def adV : Adapter :=
  fun _ _ => { z := [[0, 1]], codes := [1], loss := 2, perplexity := 5 }

/-- An adapter whose quantization loss is 0. -/
noncomputable def adZ : Adapter :=
  fun _ _ => { z := [[1, 0]], codes := [0], loss := 0, perplexity := 0 }

/-- Concrete model with only the text adapter `adT` active. -/
noncomputable def mT : VQCLIPModel :=
  { clip_model := cb0, vision_vq_adapter := none, text_vq_adapter := some adT }

/-- Concrete model with both adapters active. -/
noncomputable def mTV : VQCLIPModel :=
  { clip_model := cb0, vision_vq_adapter := some adV, text_vq_adapter := some adT }

/-- Concrete model whose only adapter has quantization loss 0. -/
noncomputable def mZ : VQCLIPModel :=
  { clip_model := cb0, vision_vq_adapter := none, text_vq_adapter := some adZ }

/-! ## How the final embeddings relate to the projected ones -/

theorem forwardLocals_text_embeds_of_none (m : VQCLIPModel) (x : ForwardInputs)
    (rl rp : Bool) (h : m.text_vq_adapter = none) :
    (forwardLocals m x rl rp).text_embeds = normalizeRows (textProjected m x) := by
  simp [forwardLocals, textProjected, h]

theorem forwardLocals_image_embeds_of_none (m : VQCLIPModel) (x : ForwardInputs)
    (rl rp : Bool) (h : m.vision_vq_adapter = none) :
    (forwardLocals m x rl rp).image_embeds = normalizeRows (imageProjected m x) := by
  simp [forwardLocals, imageProjected, h]

theorem forwardLocals_text_embeds_of_some (m : VQCLIPModel) (x : ForwardInputs)
    (rl rp : Bool) (a : Adapter) (h : m.text_vq_adapter = some a) :
    (forwardLocals m x rl rp).text_embeds
      = (a (normalizeRows (textProjected m x)) rp).z := by
  simp [forwardLocals, textProjected, h]

theorem forwardLocals_image_embeds_of_some (m : VQCLIPModel) (x : ForwardInputs)
    (rl rp : Bool) (a : Adapter) (h : m.vision_vq_adapter = some a) :
    (forwardLocals m x rl rp).image_embeds
      = (a (normalizeRows (imageProjected m x)) rp).z := by
  simp [forwardLocals, imageProjected, h]

/-! ## C1 -/

/-- C1 counterexample: with the text adapter `adT` active the text
embedding fed into the cosine-similarity matmul (the `text_embeds` the
output carries, exactly the matrix `forward` multiplied) is the adapter
output `[[2, 0]]`, whose squared L2 norm is 4, not 1, even though the
projected text embedding `[3, 4]` is non-zero: the adapter output is not
re-normalized, so the claim that every embedding fed into the
cosine-similarity computation has unit L2 norm fails. -/
theorem forward_adapter_breaks_unit_norm :
    textProjected mT cx0 = [[3, 4]]
    ∧ sumSq [(3 : ℝ), 4] ≠ 0
    ∧ (structuredOut (forward mT cx0 false true false)).map VQCLIPOutput.text_embeds
        = some [[2, 0]]
    ∧ sumSq [(2 : ℝ), 0] ≠ 1 := by
  refine ⟨rfl, by norm_num [sumSq], ?_, by norm_num [sumSq]⟩
  rw [forward_structured_eq]
  simp only [structuredOut, Option.map_some]
  rw [forwardLocals_text_embeds_of_some mT cx0 false false adT rfl]
  rfl

/-- C1 (amended): in the full forward pass both projected embeddings are
L2-normalized before any adapter runs; a modality without an active
adapter feeds a unit-norm embedding into the cosine-similarity
computation, while a modality with an active adapter feeds the adapter's
(not re-normalized) output; the logits are the scaled product of exactly
these final embeddings, and `logits_per_image` is the transpose of
`logits_per_text`. -/
theorem forward_cosine_similarity_inputs (m : VQCLIPModel) (x : ForwardInputs)
    (rl rp : Bool)
    (ht : ∀ row ∈ textProjected m x, ∃ a ∈ row, a ≠ 0)
    (hv : ∀ row ∈ imageProjected m x, ∃ a ∈ row, a ≠ 0) :
    (forwardLocals m x rl rp).logits_per_text
        = smulM (Real.exp m.clip_model.logit_scale)
            (matmulT (forwardLocals m x rl rp).text_embeds
              (forwardLocals m x rl rp).image_embeds)
    ∧ (forwardLocals m x rl rp).logits_per_image
        = ((forwardLocals m x rl rp).logits_per_text).transpose
    ∧ (m.text_vq_adapter = none →
        ∀ row ∈ (forwardLocals m x rl rp).text_embeds, sumSq row = 1)
    ∧ (m.vision_vq_adapter = none →
        ∀ row ∈ (forwardLocals m x rl rp).image_embeds, sumSq row = 1)
    ∧ (∀ a, m.text_vq_adapter = some a →
        (forwardLocals m x rl rp).text_embeds
          = (a (normalizeRows (textProjected m x)) rp).z)
    ∧ (∀ a, m.vision_vq_adapter = some a →
        (forwardLocals m x rl rp).image_embeds
          = (a (normalizeRows (imageProjected m x)) rp).z) := by
  refine ⟨rfl, rfl, ?_, ?_,
    fun a h => forwardLocals_text_embeds_of_some m x rl rp a h,
    fun a h => forwardLocals_image_embeds_of_some m x rl rp a h⟩
  · intro h row hrow
    rw [forwardLocals_text_embeds_of_none m x rl rp h] at hrow
    simp only [normalizeRows] at hrow
    rcases List.mem_map.mp hrow with ⟨v, hvmem, rfl⟩
    rcases ht v hvmem with ⟨a, hav, hane⟩
    exact sumSq_normalizeRow v (sumSq_pos_of_mem v a hav hane).ne'
  · intro h row hrow
    rw [forwardLocals_image_embeds_of_none m x rl rp h] at hrow
    simp only [normalizeRows] at hrow
    rcases List.mem_map.mp hrow with ⟨v, hvmem, rfl⟩
    rcases hv v hvmem with ⟨a, hav, hane⟩
    exact sumSq_normalizeRow v (sumSq_pos_of_mem v a hav hane).ne'

/-- C1 witness: at the adapter-free concrete model `m00` every embedding
fed into the cosine-similarity computation has unit squared norm and the
two logits matrices are transposes of each other. -/
theorem forward_cosine_similarity_inputs_witness :
    ((forwardLocals m00 cx0 true false).logits_per_image
        = ((forwardLocals m00 cx0 true false).logits_per_text).transpose)
    ∧ (∀ row ∈ (forwardLocals m00 cx0 true false).text_embeds, sumSq row = 1)
    ∧ (∀ row ∈ (forwardLocals m00 cx0 true false).image_embeds, sumSq row = 1) := by
  have ht : ∀ row ∈ textProjected m00 cx0, ∃ a ∈ row, a ≠ 0 := by
    intro row hrow
    simp [textProjected, m00, cb0, cx0] at hrow
    subst hrow
    exact ⟨3, by simp, by norm_num⟩
  have hv : ∀ row ∈ imageProjected m00 cx0, ∃ a ∈ row, a ≠ 0 := by
    intro row hrow
    simp [imageProjected, m00, cb0, cx0] at hrow
    subst hrow
    exact ⟨1, by simp, by norm_num⟩
  have h := forward_cosine_similarity_inputs m00 cx0 true false ht hv
  exact ⟨h.2.1, h.2.2.1 rfl, h.2.2.2.1 rfl⟩

/-! ## C2 -/

/-- C2 (code bug): with the text adapter active and perplexity explicitly
requested, the internally computed perplexity is 3, yet the structured
result's `perplexity` field is `None`: the `VQCLIPOutput` constructor call
at source lines 236-246 never passes the computed perplexity, so the field
keeps its dataclass default. -/
theorem forward_perplexity_dropped :
    mT.text_vq_adapter.isSome = true
    ∧ (forwardLocals mT cx0 false true).perplexity = 3
    ∧ (structuredOut (forward mT cx0 false true true)).map VQCLIPOutput.perplexity
        = some none := by
  refine ⟨rfl, ?_, ?_⟩
  · simp [forwardLocals, mT, adT]
  · rw [forward_structured_eq]
    rfl

/-! ## C3 -/

/-- C3 (code bug): with both adapters active and fixed adapter losses 1
and 2 and perplexities 3 and 5, the reported quantization loss is the
arithmetic mean (1 + 2) / 2 and the internally computed perplexity is the
mean (3 + 5) / 2; with exactly one adapter the quantization loss is that
adapter's loss 1 undivided.  The perplexity, however, is not reported:
the structured result's `perplexity` field stays `None` even though it
was requested, because the constructor call drops it. -/
theorem forward_loss_averaging :
    (forwardLocals mTV cx0 true true).vq_loss = (1 + 2) / 2
    ∧ (forwardLocals mTV cx0 true true).perplexity = (3 + 5) / 2
    ∧ (structuredOut (forward mTV cx0 true true true)).map VQCLIPOutput.perplexity
        = some none
    ∧ (forwardLocals mT cx0 true true).vq_loss = 1 := by
  refine ⟨?_, ?_, ?_, ?_⟩
  · simp [forwardLocals, mTV, adT, adV]
  · simp [forwardLocals, mTV, adT, adV]
  · rw [forward_structured_eq]
    rfl
  · simp [forwardLocals, mT, adT]

/-! ## C4 -/

/-- C4: in the structured result, the combined total loss equals the
contrastive loss plus the quantization loss and is present exactly when
`return_loss` is true; when no loss was requested it is `None`, not 0. -/
theorem forward_total_loss_semantics (m : VQCLIPModel) (x : ForwardInputs)
    (rl rp : Bool) :
    ∃ out, forward m x rl true rp = ForwardRet.structured out
      ∧ (rl = true → ∃ cl, out.contrastive_loss = some cl
            ∧ out.loss = some (cl + out.quantization_loss))
      ∧ (rl = false → out.loss = none ∧ out.contrastive_loss = none) := by
  refine ⟨_, forward_structured_eq m x rl rp, ?_, ?_⟩
  · rintro rfl
    exact ⟨m.clip_model.clip_loss (forwardLocals m x true rp).logits_per_text,
      rfl, rfl⟩
  · rintro rfl
    exact ⟨rfl, rfl⟩

/-! ## C6 -/

/-- C6: the flat tuple is exactly `(loss?, logits_per_image,
logits_per_text, text_embeds, image_embeds, text_outputs,
vision_outputs)` with the loss prepended iff a loss was requested, and for
identical inputs the flat and structured modes carry the same logits and
embeddings. -/
theorem forward_flat_tuple_shape (m : VQCLIPModel) (x : ForwardInputs)
    (rl rp : Bool) :
    forward m x rl false rp = ForwardRet.tuple
      ((if rl then
          [FlatItem.scalar
            (m.clip_model.clip_loss (forwardLocals m x rl rp).logits_per_text)]
        else []) ++
        [FlatItem.mat (forwardLocals m x rl rp).logits_per_image,
         FlatItem.mat (forwardLocals m x rl rp).logits_per_text,
         FlatItem.mat (forwardLocals m x rl rp).text_embeds,
         FlatItem.mat (forwardLocals m x rl rp).image_embeds,
         FlatItem.tower (forwardLocals m x rl rp).text_outputs,
         FlatItem.tower (forwardLocals m x rl rp).vision_outputs])
    ∧ ∃ out, forward m x rl true rp = ForwardRet.structured out
        ∧ out.logits_per_image = (forwardLocals m x rl rp).logits_per_image
        ∧ out.logits_per_text = (forwardLocals m x rl rp).logits_per_text
        ∧ out.text_embeds = (forwardLocals m x rl rp).text_embeds
        ∧ out.image_embeds = (forwardLocals m x rl rp).image_embeds := by
  constructor
  · cases rl
    · rfl
    · rfl
  · exact ⟨_, forward_structured_eq m x rl rp, rfl, rfl, rfl, rfl⟩

/-! ## C9 -/

/-- C9: with zero active adapters the structured result's quantization
loss is exactly 0 and both code fields are absent, for every input. -/
theorem forward_no_adapter_quantization (m : VQCLIPModel) (x : ForwardInputs)
    (rl rp : Bool)
    (ht : m.text_vq_adapter = none) (hv : m.vision_vq_adapter = none) :
    ∃ out, forward m x rl true rp = ForwardRet.structured out
      ∧ out.quantization_loss = 0 ∧ out.text_codes = none
      ∧ out.image_codes = none := by
  refine ⟨_, forward_structured_eq m x rl rp, ?_, ?_, ?_⟩ <;>
    simp [forwardLocals, ht, hv]

/-- C9 witness: the property at the concrete adapter-free model `m00`. -/
theorem forward_no_adapter_quantization_witness :
    ∃ out, forward m00 cx0 true true true = ForwardRet.structured out
      ∧ out.quantization_loss = 0 ∧ out.text_codes = none
      ∧ out.image_codes = none :=
  forward_no_adapter_quantization m00 cx0 true true rfl rfl

/-! ## C5 -/

/-- C5 counterexample: with the zero-loss adapter `adZ` active and a loss
requested, the flat tuple's loss position and the structured `loss` field
carry the same value on identical inputs, so the two output modes do not
always report different values when an adapter is active. -/
theorem flat_and_structured_loss_agree_on_zero_vq :
    mZ.text_vq_adapter.isSome = true
    ∧ flatLossHead (forward mZ cx0 true false false)
        = structuredTotalLoss (forward mZ cx0 true true false) := by
  refine ⟨rfl, ?_⟩
  rw [forward_structured_eq]
  simp [flatLossHead, structuredTotalLoss, forward, forwardLocals, mZ, cb0, adZ]

/-- C5 (amended): with `return_loss` true and at least one adapter active,
the loss heading the flat tuple is the contrastive loss alone while the
structured `loss` field is the contrastive loss plus the quantization
loss; whenever the quantization loss is non-zero the two output modes
therefore report different values in their loss position for identical
inputs. -/
theorem flat_loss_excludes_quantization (m : VQCLIPModel) (x : ForwardInputs)
    (rp : Bool)
    (hA : m.text_vq_adapter.isSome = true ∨ m.vision_vq_adapter.isSome = true) :
    flatLossHead (forward m x true false rp)
        = some (m.clip_model.clip_loss (forwardLocals m x true rp).logits_per_text)
    ∧ structuredTotalLoss (forward m x true true rp)
        = some (m.clip_model.clip_loss (forwardLocals m x true rp).logits_per_text
            + (forwardLocals m x true rp).vq_loss)
    ∧ ((forwardLocals m x true rp).vq_loss ≠ 0 →
        flatLossHead (forward m x true false rp)
          ≠ structuredTotalLoss (forward m x true true rp)) := by
  have h1 : flatLossHead (forward m x true false rp)
      = some (m.clip_model.clip_loss (forwardLocals m x true rp).logits_per_text) :=
    rfl
  have h2 : structuredTotalLoss (forward m x true true rp)
      = some (m.clip_model.clip_loss (forwardLocals m x true rp).logits_per_text
          + (forwardLocals m x true rp).vq_loss) := rfl
  refine ⟨h1, h2, fun hvq heq => hvq ?_⟩
  rw [h1, h2] at heq
  have h3 := Option.some.inj heq
  linarith

/-- C5 witness: at the concrete model `mT`, whose text adapter has
quantization loss 1, the two output modes disagree in their loss
position. -/
theorem flat_loss_excludes_quantization_witness :
    flatLossHead (forward mT cx0 true false false)
      ≠ structuredTotalLoss (forward mT cx0 true true false) := by
  refine (flat_loss_excludes_quantization mT cx0 false (Or.inl rfl)).2.2 ?_
  simp [forwardLocals, mT, adT]

/-! ## C7 -/

/-- The parameter mapping `save_adapter` writes (source lines 248-258):
serialize the model's full parameter mapping, then drop every entry whose
dotted name starts with the backbone namespace `clip_model`.  Parameter
tensors are opaque scalars here, and the state-dict enumeration itself is
external torch machinery, so the operation is modelled on the full
mapping directly. -/
def save_adapter_sd (sd : List (String × ℚ)) : List (String × ℚ) :=
  sd.filter (fun kv => !(kv.1.startsWith "clip_model"))

/-- C7: the saved mapping contains zero entries whose name is prefixed by
the backbone namespace `clip_model`, and contains exactly every other
entry of the model's full parameter mapping, each with its value
unchanged. -/
theorem save_adapter_selective (sd : List (String × ℚ)) (kv : String × ℚ) :
    kv ∈ save_adapter_sd sd
      ↔ kv ∈ sd ∧ kv.1.startsWith "clip_model" = false := by
  simp [save_adapter_sd, List.mem_filter]

/-! ## C8 -/

/-- `VQCLIPModel.from_pretrained_clip` (source lines 260-269): load the
adapter-only checkpoint into a full model, independently load a backbone,
then replace the model's backbone reference.  The two checkpoint loaders
are external services that either return a value or raise, modelled as
`Except`-returning parameters; a Python exception propagates, which is
the `Except.error` short-circuit. -/
def from_pretrained_clip (loadVQ : String → Except String VQCLIPModel)
    (loadClip : String → Except String CLIPBackbone)
    (vq_clip_path clip_path : String) : Except String VQCLIPModel :=
  match loadVQ vq_clip_path with
  | Except.error e => Except.error e
  | Except.ok vq_clip =>
    match loadClip clip_path with
    | Except.error e => Except.error e
    | Except.ok clip => Except.ok { vq_clip with clip_model := clip }

/-- C8: if either load fails the whole graft-load fails with the
originating error and no model is returned; if both succeed, the returned
model's backbone is the one loaded from the backbone path and its adapter
fields are exactly those the adapter checkpoint restored. -/
theorem graft_load_atomic (loadVQ : String → Except String VQCLIPModel)
    (loadClip : String → Except String CLIPBackbone) (p q : String) :
    (∀ e, loadVQ p = Except.error e →
        from_pretrained_clip loadVQ loadClip p q = Except.error e)
    ∧ (∀ m e, loadVQ p = Except.ok m → loadClip q = Except.error e →
        from_pretrained_clip loadVQ loadClip p q = Except.error e)
    ∧ (∀ m c, loadVQ p = Except.ok m → loadClip q = Except.ok c →
        from_pretrained_clip loadVQ loadClip p q
            = Except.ok { m with clip_model := c }
          ∧ ∀ mr, from_pretrained_clip loadVQ loadClip p q = Except.ok mr →
              mr.clip_model = c ∧ mr.text_vq_adapter = m.text_vq_adapter
                ∧ mr.vision_vq_adapter = m.vision_vq_adapter) := by
  refine ⟨?_, ?_, ?_⟩
  · intro e he
    simp [from_pretrained_clip, he]
  · intro m e hm he
    simp [from_pretrained_clip, hm, he]
  · intro m c hm hc
    have hok : from_pretrained_clip loadVQ loadClip p q
        = Except.ok { m with clip_model := c } := by
      simp [from_pretrained_clip, hm, hc]
    refine ⟨hok, fun mr hmr => ?_⟩
    rw [hok] at hmr
    have h4 := Except.ok.inj hmr
    subst h4
    exact ⟨rfl, rfl, rfl⟩

/-! ## C10 -/

/-- An opaque configuration fragment: a flat string-to-string mapping. -/
abbrev ConfigFragment := List (String × String)

/-- `VQCLIPConfig` (source lines 19-32): the backbone's configuration
fragment plus one optional adapter fragment per modality, each stored as
a plain mapping. -/
structure VQCLIPConfig where
  clip_config_dict : ConfigFragment
  vision_vq_adapter_config_dict : Option ConfigFragment
  text_vq_adapter_config_dict : Option ConfigFragment

/-- Modelled from the spec: serialization of the composite configuration
to a nested mapping.  The code for this lives in the external
`PretrainedConfig` base class (`to_dict`), not in the repository's
sources; per the spec the composite serializes to a flat nested mapping
with three named fragments. -/
def configToDict (c : VQCLIPConfig) : List (String × Option ConfigFragment) :=
  [("clip_config_dict", some c.clip_config_dict),
   ("vision_vq_adapter_config_dict", c.vision_vq_adapter_config_dict),
   ("text_vq_adapter_config_dict", c.text_vq_adapter_config_dict)]

/-- Modelled from the spec: reconstruction of a composite from the nested
mapping (the external `from_dict` passes the mapping's entries back to
the composite constructor; a mapping without the required backbone
fragment cannot be parsed). -/
def configFromDict (d : List (String × Option ConfigFragment)) :
    Option VQCLIPConfig :=
  match d.lookup "clip_config_dict" with
  | some (some cc) =>
      some { clip_config_dict := cc
             vision_vq_adapter_config_dict :=
               (d.lookup "vision_vq_adapter_config_dict").join
             text_vq_adapter_config_dict :=
               (d.lookup "text_vq_adapter_config_dict").join }
  | _ => none

/-- C10: composing a composite configuration from its fragments,
serializing it and reconstructing it yields a field-for-field identical
composite, whichever adapter fragments are present or absent. -/
theorem config_round_trip (c : VQCLIPConfig) :
    configFromDict (configToDict c) = some c := rfl

/-- Concrete backbone-only composite. -/
def cfg00 : VQCLIPConfig :=
  { clip_config_dict := [("hidden_size", "512")]
    vision_vq_adapter_config_dict := none
    text_vq_adapter_config_dict := none }

/-- Concrete vision-only composite. -/
def cfgV : VQCLIPConfig :=
  { cfg00 with vision_vq_adapter_config_dict := some [("codes", "64")] }

/-- Concrete text-only composite. -/
def cfgT : VQCLIPConfig :=
  { cfg00 with text_vq_adapter_config_dict := some [("codes", "32")] }

/-- Concrete composite with both adapter fragments. -/
def cfgVT : VQCLIPConfig :=
  { cfgV with text_vq_adapter_config_dict := some [("codes", "32")] }

/-- C10 witness: the round trip at all four concrete combinations of
present and absent adapter fragments. -/
theorem config_round_trip_witness :
    configFromDict (configToDict cfg00) = some cfg00
    ∧ configFromDict (configToDict cfgV) = some cfgV
    ∧ configFromDict (configToDict cfgT) = some cfgT
    ∧ configFromDict (configToDict cfgVT) = some cfgVT :=
  ⟨config_round_trip cfg00, config_round_trip cfgV,
    config_round_trip cfgT, config_round_trip cfgVT⟩

end VQClip
